import Mathlib

/-
Verification of the request pipeline of awm33/api-gateway (src/gateway/gateway.js).

The gateway sequences six stages per request: client identity resolution
(utils.getUserIp), ban check (bans.checkBan), endpoint resolution (getEndpoint
over config.endpoints), authentication (authentication.authenticate), rate
limiting (rateLimiting.rateLimit) and proxied forwarding (proxy.web).  The
collaborator modules bans, authentication, rateLimiting and utils are part of
the repository but their sources are not included here; where their behavior
decides a claim they are modelled from the spec, as marked in doc comments.
The pipeline control flow itself is embedded directly from gateway.js.

Strings manipulated by the route matcher are embedded as lists of characters
(Str); strings that the pipeline only passes around opaquely (messages, ids,
names) stay Lean String values.
-/

namespace Gateway

/-- Character-list strings, used where gateway.js manipulates the request URL. -/
abbrev Str := List Char

/-- litMatch lit s decides whether the literal lit occurs at position 0 of s.
Models matching a regex literal at one subject position. -/
def litMatch : Str → Str → Bool
  | [], _ => true
  | _ :: _, [] => false
  | a :: as, b :: bs => a == b && litMatch as bs

/-- splitFirst lit s finds the leftmost occurrence of lit in s and returns the
part of s before it and the part after it, or none when lit does not occur.
Models where the JS regex lit(.*) matches in a newline-free subject: the group
(.*) greedily captures everything after the leftmost occurrence of the
literal. -/
def splitFirst (lit : Str) : Str → Option (Str × Str)
  | [] => if litMatch lit [] then some ([], []) else none
  | c :: rest =>
    if litMatch lit (c :: rest) then some ([], (c :: rest).drop lit.length)
    else (splitFirst lit rest).map fun p => (c :: p.1, p.2)

/-- substGroup g tmpl replaces every occurrence of the two-character marker
dollar-one in the template by the captured group g.  Models the template
substitution of JS String.prototype.replace for templates that use no other
dollar escape, such as the target http://users-svc/$1 of the spec example. -/
def substGroup (g : Str) : Str → Str
  | [] => []
  | '$' :: '1' :: rest => g ++ substGroup g rest
  | c :: rest => c :: substGroup g rest

/-- A route pattern: a JS RegExp as observed at its two call sites in
gateway.js, pattern.test(url) at line 22 and url.replace(pattern, target) at
line 68. -/
structure Pattern where
  test : Str → Bool
  rewrite : Str → Str → Str

/-- The RegExp family lit(.*): a literal followed by one greedy wildcard
group.  test is occurrence of the literal anywhere in the subject (the group
may be empty); rewrite replaces the leftmost match, which extends from the
literal to the end of the subject, by the template with the group bound to
the part after the literal, leaving the part before the match untouched.
This is the observable behavior of such a RegExp on newline-free subjects. -/
def prefixCapture (lit : Str) : Pattern where
  test s := (splitFirst lit s).isSome
  rewrite s tmpl :=
    match splitFirst lit s with
    | some (pre, rest) => pre ++ substGroup rest tmpl
    | none => s

/-- An Endpoint Table entry: pattern, rewrite target, name (spec section 3;
config.endpoints entries in gateway.js). -/
structure Endpoint where
  pattern : Pattern
  target : Str
  name : String

/-- gateway.js lines 20 to 25: linear scan over config.endpoints.  A for-in
loop over a JS array visits the indices in ascending order, so the first entry
whose pattern tests true on the url is returned, and undefined (here none)
when no entry matches. -/
def getEndpoint : List Endpoint → Str → Option Endpoint
  | [], _ => none
  | e :: rest, url => if e.pattern.test url then some e else getEndpoint rest url

/-- An HTTP response as written by the gateway: status, body message, and the
X-Request-ID header value if one was set on the response. -/
structure Response where
  status : Nat
  message : String
  xRequestId : Option String
deriving DecidableEq, Repr

/-- Modelled from the spec: utils.abort(req, res, status, body), whose source
(utils module) is not included.  Per spec section 6 the failure responses are
fixed status plus generic message; the only write of the X-Request-ID header
onto a response in the included source is the proxyReq handler at gateway.js
line 36, so aborted responses carry none. -/
def abort (status : Nat) (message : String) : Response :=
  { status := status, message := message, xRequestId := none }

/-- The fixed infrastructure failure response of gateway.js lines 46 and 56. -/
def internalServerError : Response := abort 500 "Internal Server Error"

/-- The fixed route-not-found response of gateway.js line 66. -/
def routeNotFound : Response := abort 404 "Route not found"

/-- Modelled from the spec: the Ban Guard collaborator bans.checkBan(req, res,
callback), whose source (bans module) is not included.  Per spec section 4.2
the outcomes are allowed, denied and error.  On denied the guard writes its
own designated status and body to res and does not invoke the continuation;
on error the continuation receives err (handled at gateway.js line 59); on
allowed the continuation receives no error. -/
inductive BanOutcome where
  | allowed : BanOutcome
  | denied : Nat → String → BanOutcome
  | cbError : String → BanOutcome
deriving DecidableEq

/-- Modelled from the spec: the Authenticator collaborator
authentication.authenticate(endpoint, req, res, callback), whose source
(authentication module) is not included.  Per spec section 4.4 a declared
failure aborts the pipeline with the collaborator-specified status and body:
the collaborator writes res itself and does not invoke the continuation.
Success invokes the continuation with a token identity.  cbError models the
continuation being invoked with err, which gateway.js line 71 routes to
errorReq. -/
inductive AuthOutcome where
  | token : String → AuthOutcome
  | declaredFailure : Nat → String → AuthOutcome
  | cbError : String → AuthOutcome
deriving DecidableEq

/-- Modelled from the spec: the Rate Limiter collaborator
rateLimiting.rateLimit(redisclient, endpoint, tokenId, req, res, callback),
whose source (rateLimiting module) is not included.  The continuation at
gateway.js line 75 takes no error argument, so rejection is handled inside
the collaborator: it writes its designated status and body and does not
invoke the continuation; admission invokes the continuation. -/
inductive RateLimitOutcome where
  | admitted : RateLimitOutcome
  | rejected : Nat → String → RateLimitOutcome
deriving DecidableEq

/-- Outcome of the upstream call made by proxy.web: either the upstream
responds (status, body) and the proxyRes event fires (gateway.js lines 39 to
41), or a transport-level error occurs and the proxy error event fires
(gateway.js lines 29 to 31). -/
inductive UpstreamOutcome where
  | ok : Nat → String → UpstreamOutcome
  | transportError : String → UpstreamOutcome
deriving DecidableEq

/-- The per-request behavior of the external collaborators and of the
upstream, supplied as parameters of one pipeline run. -/
structure Env where
  ban : BanOutcome
  auth : AuthOutcome
  rateLimit : RateLimitOutcome
  upstream : UpstreamOutcome
deriving DecidableEq

/-- A client request as the handler sees it.  url is req.url, which in Node
contains the path followed by the query string.  userIp is the result of
utils.getUserIp(req) (utils source not included; the claims condition on its
result, so it is an input of the run). -/
structure Request where
  url : Str
  userIp : Option String
deriving DecidableEq

/-- The six pipeline stages of spec section 4.7, as they occur in the handler
of gateway.js lines 49 to 88. -/
inductive Stage where
  | identity : Stage
  | banCheck : Stage
  | endpointResolution : Stage
  | authentication : Stage
  | rateLimiting : Stage
  | forwarding : Stage
deriving DecidableEq, Repr

/-- The fixed pipeline order of spec sections 2 and 4.7. -/
def pipelineOrder : List Stage :=
  [.identity, .banCheck, .endpointResolution, .authentication, .rateLimiting, .forwarding]

/-- The upstream request issued by proxy.web (gateway.js lines 78 to 84),
together with the X-Request-ID header set on it by the proxyReq handler at
line 35 and the options passed at lines 79 to 83. -/
structure Forwarded where
  target : Str
  xRequestId : String
  ignorePath : Bool
  xfwd : Bool
  preserveHeaderKeyCase : Bool
  secure : Bool
deriving DecidableEq

/-- Everything observable about one pipeline run: the stages invoked, in
order; the response written to the client, if any; req.requestId (line 61),
if assigned; the name of the endpoint resolved at line 63, if resolution ran
and matched; the upstream request, if forwarding ran; the X-Request-ID header
set on res by line 36, if forwarding ran; and the arguments of
utils.logger.error calls, in order. -/
structure Outcome where
  stages : List Stage
  response : Option Response
  requestId : Option String
  resolved : Option String
  forwarded : Option Forwarded
  resXRequestId : Option String
  loggedErrors : List String
deriving DecidableEq

/-- The request handler of gateway.js lines 49 to 88, with the collaborator
behavior env and the uuid.v4() value freshId as inputs.  It mirrors the
source control flow exactly: getUserIp with abort 500 when absent (lines 53
to 56); checkBan with errorReq on callback error (lines 58 to 59); requestId
assignment (line 61); getEndpoint on req.url with abort 404 on no match
(lines 63 to 66); target computed by replacing the pattern in req.url by the
endpoint target (line 68); authenticate with errorReq on callback error
(lines 70 to 71); rateLimit (line 75); proxy.web with ignorePath, xfwd and
preserveHeaderKeyCase true and secure false (lines 78 to 84), whose proxyReq
handler stamps X-Request-ID onto both the upstream request and the client
response (lines 33 to 37), and whose error handler only logs (lines 29 to
31). -/
def handle (endpoints : List Endpoint) (env : Env) (req : Request)
    (freshId : String) : Outcome :=
  match req.userIp with
  | none =>
    { stages := [.identity], response := some internalServerError,
      requestId := none, resolved := none, forwarded := none,
      resXRequestId := none, loggedErrors := [] }
  | some _ =>
    match env.ban with
    | .cbError e =>
      { stages := [.identity, .banCheck], response := some internalServerError,
        requestId := none, resolved := none, forwarded := none,
        resXRequestId := none, loggedErrors := [e] }
    | .denied st msg =>
      { stages := [.identity, .banCheck], response := some (abort st msg),
        requestId := none, resolved := none, forwarded := none,
        resXRequestId := none, loggedErrors := [] }
    | .allowed =>
      match getEndpoint endpoints req.url with
      | none =>
        { stages := [.identity, .banCheck, .endpointResolution],
          response := some routeNotFound, requestId := some freshId,
          resolved := none, forwarded := none, resXRequestId := none,
          loggedErrors := [] }
      | some ep =>
        match env.auth with
        | .cbError e =>
          { stages := [.identity, .banCheck, .endpointResolution, .authentication],
            response := some internalServerError, requestId := some freshId,
            resolved := some ep.name, forwarded := none, resXRequestId := none,
            loggedErrors := [e] }
        | .declaredFailure st msg =>
          { stages := [.identity, .banCheck, .endpointResolution, .authentication],
            response := some (abort st msg), requestId := some freshId,
            resolved := some ep.name, forwarded := none, resXRequestId := none,
            loggedErrors := [] }
        | .token _ =>
          match env.rateLimit with
          | .rejected st msg =>
            { stages := [.identity, .banCheck, .endpointResolution,
                .authentication, .rateLimiting],
              response := some (abort st msg), requestId := some freshId,
              resolved := some ep.name, forwarded := none, resXRequestId := none,
              loggedErrors := [] }
          | .admitted =>
            let fwd : Forwarded :=
              { target := ep.pattern.rewrite req.url ep.target,
                xRequestId := freshId, ignorePath := true, xfwd := true,
                preserveHeaderKeyCase := true, secure := false }
            match env.upstream with
            | .ok st body =>
              let relayed : Response :=
                { status := st, message := body, xRequestId := some freshId }
              { stages := pipelineOrder,
                response := some relayed,
                requestId := some freshId, resolved := some ep.name,
                forwarded := some fwd,
                resXRequestId := some freshId, loggedErrors := [] }
            | .transportError e =>
              { stages := pipelineOrder, response := none,
                requestId := some freshId, resolved := some ep.name,
                forwarded := some fwd,
                resXRequestId := some freshId, loggedErrors := [e] }

/-- Models uuid.v4() from node-uuid (gateway.js line 61) as a generator of
per-request tokens indexed by a request serial.  The library contract used by
the spec (section 3: a freshly generated unique token per request) is
captured by this generator being injective and never producing the empty
string; the concrete token shape is irrelevant to the pipeline. -/
def uuidV4 (n : Nat) : String := String.mk ('u' :: List.replicate n 'x')

/-- The Endpoint Table entry of the spec round-trip example: pattern
/api/users/(.*), target http://users-svc/$1. -/
def usersEndpoint : Endpoint :=
  { pattern := prefixCapture ("/api/users/".data),
    target := "http://users-svc/$1".data, name := "users" }

/-- An endpoint whose pattern tests the query string: regex adm=1 followed by
a wildcard group, matching any url that contains adm=1. -/
def adminEndpoint : Endpoint :=
  { pattern := prefixCapture ("adm=1".data), target := "A$1".data,
    name := "admin" }

/-- A catch-all endpoint: regex (.*) with an empty literal, matching every
url. -/
def catchAllEndpoint : Endpoint :=
  { pattern := prefixCapture ([] : Str), target := "B$1".data, name := "all" }

/-- Collaborator behavior where every gate passes and the upstream answers
with status 200. -/
def okEnv : Env :=
  { ban := .allowed, auth := .token "tok", rateLimit := .admitted,
    upstream := .ok 200 "payload" }

/-- Collaborator behavior where every gate passes but the upstream call fails
at the transport level. -/
def upstreamFailEnv : Env :=
  { ban := .allowed, auth := .token "tok", rateLimit := .admitted,
    upstream := .transportError "connect ECONNREFUSED" }

/-- Collaborator behavior where the Authenticator declares a 401 failure. -/
def authFailEnv : Env :=
  { ban := .allowed, auth := .declaredFailure 401 "Unauthorized",
    rateLimit := .admitted, upstream := .ok 200 "payload" }

/-- Collaborator behavior where the Ban Guard denies with its designated
status 403. -/
def banDeniedEnv : Env :=
  { ban := .denied 403 "Banned", auth := .token "tok", rateLimit := .admitted,
    upstream := .ok 200 "payload" }

/-- A concrete request with a resolvable client identity. -/
def reqExample : Request := { url := "/x".data, userIp := some "1.1.1.1" }

/-- The upstream request produced by running the catch-all example through an
all-pass environment with the serial-zero uuid, used as a concrete witness
input. -/
def fwdExample : Forwarded :=
  { target := "B/x".data, xRequestId := uuidV4 0, ignorePath := true,
    xfwd := true, preserveHeaderKeyCase := true, secure := false }

def usersReq : Request := { url := "/api/users/42?x=1".data, userIp := some "9.9.9.9" }

def usersFwd : Forwarded :=
  { target := "http://users-svc/42?x=1".data, xRequestId := "rid",
    ignorePath := true, xfwd := true, preserveHeaderKeyCase := true,
    secure := false }

/-- litMatch is occurrence of the literal at position 0: it succeeds exactly
when the subject extends the literal. -/
theorem litMatch_iff (lit : Str) : ∀ s : Str, litMatch lit s = true ↔ ∃ t, s = lit ++ t := by
  induction lit with
  | nil => intro s; simp [litMatch]
  | cons a as ih =>
    intro s
    cases s with
    | nil => simp [litMatch]
    | cons b bs =>
      simp only [litMatch, Bool.and_eq_true, beq_iff_eq, ih bs, List.cons_append,
        List.cons.injEq]
      constructor
      · rintro ⟨rfl, t, rfl⟩; exact ⟨t, rfl, rfl⟩
      · rintro ⟨t, rfl, rfl⟩; exact ⟨rfl, t, rfl⟩

/-- splitFirst is sound: when it splits the subject at (pre, rest), the
subject is literally pre, then the matched literal, then rest. -/
theorem splitFirst_sound (lit : Str) :
    ∀ s pre rest, splitFirst lit s = some (pre, rest) → s = pre ++ lit ++ rest := by
  intro s
  induction s with
  | nil =>
    intro pre rest h
    simp only [splitFirst] at h
    split at h
    · rename_i hm
      simp only [Option.some.injEq, Prod.mk.injEq] at h
      obtain ⟨rfl, rfl⟩ := h
      obtain ⟨t, ht⟩ := (litMatch_iff lit []).mp hm
      rw [eq_comm, List.append_eq_nil] at ht
      obtain ⟨rfl, rfl⟩ := ht
      rfl
    · simp at h
  | cons c cs ih =>
    intro pre rest h
    simp only [splitFirst] at h
    split at h
    · rename_i hm
      simp only [Option.some.injEq, Prod.mk.injEq] at h
      obtain ⟨rfl, rfl⟩ := h
      obtain ⟨t, ht⟩ := (litMatch_iff lit (c :: cs)).mp hm
      rw [ht, List.drop_left, List.nil_append]
    · simp only [Option.map_eq_some'] at h
      obtain ⟨⟨p, r⟩, hp, heq⟩ := h
      simp only [Prod.mk.injEq] at heq
      obtain ⟨rfl, rfl⟩ := heq
      have := ih p r hp
      simp [this]

/-- The per-request token generator is injective: distinct request serials
yield distinct correlation ids. -/
theorem uuidV4_injective : ∀ m n : Nat, uuidV4 m = uuidV4 n → m = n := by
  intro m n h
  have h2 : ('u' :: List.replicate m 'x') = ('u' :: List.replicate n 'x') :=
    congrArg String.data h
  have h3 : (List.replicate m 'x').length = (List.replicate n 'x').length := by
    rw [List.cons.injEq] at h2
    rw [h2.2]
  simpa using h3

/-- The per-request token generator never yields the empty string. -/
theorem uuidV4_ne_empty (n : Nat) : uuidV4 n ≠ "" := by
  intro h
  have h2 : ('u' :: List.replicate n 'x') = ([] : List Char) := congrArg String.data h
  cases h2

/-- Claim C5: endpoint resolution is ordered first-match-wins over the
Endpoint Table: whenever getEndpoint returns an endpoint, that endpoint
matches the url and every entry before it in declaration order fails the
test, so when two or more entries match, the earliest one is selected,
deterministically; and it returns none exactly when no entry matches. -/
theorem getEndpoint_first_match (l : List Endpoint) (url : Str) :
    (∀ e : Endpoint, getEndpoint l url = some e →
      e.pattern.test url = true ∧
      ∃ l1 l2, l = l1 ++ e :: l2 ∧ ∀ e0 ∈ l1, e0.pattern.test url = false) ∧
    (getEndpoint l url = none ↔ ∀ e0 ∈ l, e0.pattern.test url = false) := by
  induction l with
  | nil =>
    refine ⟨fun e h => by simp [getEndpoint] at h, by simp [getEndpoint]⟩
  | cons a rest ih =>
    refine ⟨fun e h => ?_, ?_⟩
    · by_cases ha : a.pattern.test url = true
      · simp only [getEndpoint, ha, if_true, Option.some.injEq] at h
        subst h
        exact ⟨ha, [], rest, rfl, by simp⟩
      · rw [Bool.not_eq_true] at ha
        simp only [getEndpoint, ha, Bool.false_eq_true, if_false] at h
        obtain ⟨hTest, l1, l2, hEq, hAll⟩ := ih.1 e h
        refine ⟨hTest, a :: l1, l2, by rw [hEq]; rfl, ?_⟩
        intro e0 he0
        rcases List.mem_cons.mp he0 with h' | h'
        · rw [h']; exact ha
        · exact hAll e0 h'
    · by_cases ha : a.pattern.test url = true
      · simp only [getEndpoint, ha, if_true]
        constructor
        · intro h; simp at h
        · intro hAll
          exact absurd (hAll a (List.mem_cons_self a rest)) (by simp [ha])
      · rw [Bool.not_eq_true] at ha
        simp only [getEndpoint, ha, Bool.false_eq_true, if_false]
        rw [ih.2]
        constructor
        · intro hAll e0 he0
          rcases List.mem_cons.mp he0 with h' | h'
          · rw [h']; exact ha
          · exact hAll e0 h'
        · intro hAll e0 he0
          exact hAll e0 (List.mem_cons_of_mem a he0)

/-- Witness for claim C5 at a concrete two-entry table where both the first
entry and the catch-all entry match the url: resolution selects the first. -/
theorem getEndpoint_first_match_witness :
    usersEndpoint.pattern.test ("/api/users/1".data) = true ∧
    ∃ l1 l2, [usersEndpoint, catchAllEndpoint] = l1 ++ usersEndpoint :: l2 ∧
      ∀ e0 ∈ l1, e0.pattern.test ("/api/users/1".data) = false :=
  (getEndpoint_first_match [usersEndpoint, catchAllEndpoint]
    ("/api/users/1".data)).1 usersEndpoint (by rfl)

/-- Claim C6: the upstream target is computed by substituting the matched
portion of the url into the rewrite template: whenever the pattern lit(.*)
matches the url at split point (pre, rest), the url is pre ++ lit ++ rest,
and the rewrite is pre ++ substGroup rest tmpl, so the part of the url not
consumed by the match is preserved verbatim and the captured part (everything
after the literal, including any query string) is substituted for the group
marker; moreover on the spec example the forwarded request uses the rewritten
target entirely (ignorePath true, no re-prefixing): /api/users/42?x=1 is sent
to http://users-svc/42 followed by the preserved query ?x=1. -/
theorem rewrite_preserves_remainder :
    (∀ lit s pre rest tmpl, splitFirst lit s = some (pre, rest) →
      s = pre ++ lit ++ rest ∧
      (prefixCapture lit).rewrite s tmpl = pre ++ substGroup rest tmpl) ∧
    ((handle [usersEndpoint] okEnv usersReq "rid").forwarded = some usersFwd ∧
      usersFwd.target = "http://users-svc/42".data ++ "?x=1".data ∧
      usersFwd.ignorePath = true) := by
  refine ⟨fun lit s pre rest tmpl h =>
    ⟨splitFirst_sound lit s pre rest h, ?_⟩, by rfl, by rfl, by rfl⟩
  simp [prefixCapture, h]

/-- Witness for claim C6 at the spec example inputs: the pattern consumes the
whole url after the literal, the prefix before the match is empty, and the
rewrite substitutes the capture into the template. -/
theorem rewrite_preserves_remainder_witness :
    ("/api/users/42?x=1".data : Str) = [] ++ "/api/users/".data ++ "42?x=1".data ∧
    (prefixCapture ("/api/users/".data)).rewrite ("/api/users/42?x=1".data)
        ("http://users-svc/$1".data) =
      [] ++ substGroup ("42?x=1".data) ("http://users-svc/$1".data) :=
  rewrite_preserves_remainder.1 ("/api/users/".data) ("/api/users/42?x=1".data)
    [] ("42?x=1".data) ("http://users-svc/$1".data) (by rfl)

/-- Claim C1: for every request the invoked stages form a prefix of the fixed
pipeline order (identity resolution, ban check, endpoint resolution,
authentication, rate limiting, forwarding), with no duplicates, so no stage
runs twice and no stage after a failure point is ever invoked; and whenever
the run stops before forwarding, a final response is written.  The last
conjunct exhibits the one deviation from the claim: on a forwarding-stage
transport failure the code only logs (gateway.js lines 29 to 31) and writes
no final response, so the part of the claim stating that any stage failure
writes the final response fails at that input. -/
theorem pipeline_stage_order :
    (∀ endpoints env req fid,
      (handle endpoints env req fid).stages <+: pipelineOrder ∧
      (handle endpoints env req fid).stages.Nodup ∧
      ((handle endpoints env req fid).response.isSome = true ∨
        Stage.forwarding ∈ (handle endpoints env req fid).stages)) ∧
    (Stage.forwarding ∈ (handle [catchAllEndpoint] upstreamFailEnv reqExample "rid").stages ∧
      (handle [catchAllEndpoint] upstreamFailEnv reqExample "rid").response = none ∧
      (handle [catchAllEndpoint] upstreamFailEnv reqExample "rid").loggedErrors ≠ []) := by
  constructor
  · intro endpoints env req fid
    obtain ⟨url, ip⟩ := req
    obtain ⟨ban, auth, rl, up⟩ := env
    cases ip with
    | none =>
      exact ⟨show [Stage.identity] <+: pipelineOrder by decide,
        show ([Stage.identity] : List Stage).Nodup by decide, Or.inl rfl⟩
    | some v =>
      cases ban with
      | cbError e =>
        exact ⟨show [Stage.identity, Stage.banCheck] <+: pipelineOrder by decide,
          show ([Stage.identity, Stage.banCheck] : List Stage).Nodup by decide,
          Or.inl rfl⟩
      | denied st msg =>
        exact ⟨show [Stage.identity, Stage.banCheck] <+: pipelineOrder by decide,
          show ([Stage.identity, Stage.banCheck] : List Stage).Nodup by decide,
          Or.inl rfl⟩
      | allowed =>
        simp only [handle]
        cases hE : getEndpoint endpoints url with
        | none =>
          exact ⟨show [Stage.identity, Stage.banCheck, Stage.endpointResolution] <+:
              pipelineOrder by decide,
            show ([Stage.identity, Stage.banCheck, Stage.endpointResolution] :
              List Stage).Nodup by decide, Or.inl rfl⟩
        | some ep =>
          cases auth with
          | cbError e =>
            exact ⟨show [Stage.identity, Stage.banCheck, Stage.endpointResolution,
                Stage.authentication] <+: pipelineOrder by decide,
              show ([Stage.identity, Stage.banCheck, Stage.endpointResolution,
                Stage.authentication] : List Stage).Nodup by decide, Or.inl rfl⟩
          | declaredFailure st msg =>
            exact ⟨show [Stage.identity, Stage.banCheck, Stage.endpointResolution,
                Stage.authentication] <+: pipelineOrder by decide,
              show ([Stage.identity, Stage.banCheck, Stage.endpointResolution,
                Stage.authentication] : List Stage).Nodup by decide, Or.inl rfl⟩
          | token tok =>
            cases rl with
            | rejected st msg =>
              exact ⟨show [Stage.identity, Stage.banCheck, Stage.endpointResolution,
                  Stage.authentication, Stage.rateLimiting] <+: pipelineOrder by decide,
                show ([Stage.identity, Stage.banCheck, Stage.endpointResolution,
                  Stage.authentication, Stage.rateLimiting] : List Stage).Nodup by decide,
                Or.inl rfl⟩
            | admitted =>
              cases up with
              | ok st body =>
                exact ⟨show pipelineOrder <+: pipelineOrder from List.prefix_rfl,
                  show pipelineOrder.Nodup by decide, Or.inl rfl⟩
              | transportError e =>
                exact ⟨show pipelineOrder <+: pipelineOrder from List.prefix_rfl,
                  show pipelineOrder.Nodup by decide,
                  Or.inr (show Stage.forwarding ∈ pipelineOrder by decide)⟩
  · exact ⟨by decide, rfl, by decide⟩

/-- Claim C2: when the client identity cannot be resolved (getUserIp yields
no IP), the response is the fixed 500 Internal Server Error and the ban
check, authentication and rate limiting collaborators are never invoked. -/
theorem no_identity_resolution_aborts (endpoints : List Endpoint) (env : Env)
    (req : Request) (fid : String) (h : req.userIp = none) :
    (handle endpoints env req fid).response = some internalServerError ∧
    Stage.banCheck ∉ (handle endpoints env req fid).stages ∧
    Stage.authentication ∉ (handle endpoints env req fid).stages ∧
    Stage.rateLimiting ∉ (handle endpoints env req fid).stages := by
  obtain ⟨url, ip⟩ := req
  cases ip with
  | none =>
    exact ⟨rfl, show Stage.banCheck ∉ [Stage.identity] by decide,
      show Stage.authentication ∉ [Stage.identity] by decide,
      show Stage.rateLimiting ∉ [Stage.identity] by decide⟩
  | some v => simp at h

/-- Witness for claim C2 at a concrete request with no resolvable IP. -/
theorem no_identity_resolution_aborts_witness :
    (handle [catchAllEndpoint] okEnv { url := "/x".data, userIp := none } "rid").response =
      some internalServerError ∧
    Stage.banCheck ∉ (handle [catchAllEndpoint] okEnv
      { url := "/x".data, userIp := none } "rid").stages ∧
    Stage.authentication ∉ (handle [catchAllEndpoint] okEnv
      { url := "/x".data, userIp := none } "rid").stages ∧
    Stage.rateLimiting ∉ (handle [catchAllEndpoint] okEnv
      { url := "/x".data, userIp := none } "rid").stages :=
  no_identity_resolution_aborts [catchAllEndpoint] okEnv
    { url := "/x".data, userIp := none } "rid" rfl

/-- Claim C3: on a Ban Guard denial the response is the designated denial
response, no correlation id is assigned to the request or attached to any
response, and authentication and rate limiting are not invoked; moreover the
correlation id is assigned exactly when identity resolution and the ban check
both pass (gateway.js line 61), and it is assigned before endpoint
resolution runs. -/
theorem ban_denied_untraced (endpoints : List Endpoint) (env : Env)
    (req : Request) (fid : String) :
    (∀ st msg, env.ban = .denied st msg → req.userIp.isSome = true →
      (handle endpoints env req fid).response = some (abort st msg) ∧
      (∀ r, (handle endpoints env req fid).response = some r → r.xRequestId = none) ∧
      (handle endpoints env req fid).requestId = none ∧
      Stage.authentication ∉ (handle endpoints env req fid).stages ∧
      Stage.rateLimiting ∉ (handle endpoints env req fid).stages) ∧
    ((handle endpoints env req fid).requestId.isSome = true ↔
      (req.userIp.isSome = true ∧ env.ban = .allowed)) ∧
    (Stage.endpointResolution ∈ (handle endpoints env req fid).stages →
      (handle endpoints env req fid).requestId.isSome = true) := by
  obtain ⟨url, ip⟩ := req
  obtain ⟨ban, auth, rl, up⟩ := env
  cases ip with
  | none =>
    refine ⟨fun st msg hban hip => by simp at hip, by simp [handle], fun hmem => ?_⟩
    simp [handle] at hmem
  | some v =>
    cases ban with
    | cbError e =>
      refine ⟨fun st msg hban hip => by simp at hban, by simp [handle], fun hmem => ?_⟩
      simp [handle] at hmem
    | denied st0 msg0 =>
      refine ⟨fun st msg hban hip => ?_, by simp [handle], fun hmem => ?_⟩
      · obtain ⟨rfl, rfl⟩ : st0 = st ∧ msg0 = msg := by
          injection hban with h1 h2
          exact ⟨h1, h2⟩
        refine ⟨rfl, fun r hr => ?_, rfl,
          show Stage.authentication ∉ [Stage.identity, Stage.banCheck] by decide,
          show Stage.rateLimiting ∉ [Stage.identity, Stage.banCheck] by decide⟩
        simp only [handle, Option.some.injEq] at hr
        rw [← hr]
        rfl
      · simp [handle] at hmem
    | allowed =>
      simp only [handle]
      cases hE : getEndpoint endpoints url with
      | none =>
        exact ⟨fun st msg hban hip => by simp at hban, by simp, fun hmem => rfl⟩
      | some ep =>
        cases auth with
        | cbError e =>
          exact ⟨fun st msg hban hip => by simp at hban, by simp, fun hmem => rfl⟩
        | declaredFailure st1 msg1 =>
          exact ⟨fun st msg hban hip => by simp at hban, by simp, fun hmem => rfl⟩
        | token tok =>
          cases rl with
          | rejected st1 msg1 =>
            exact ⟨fun st msg hban hip => by simp at hban, by simp, fun hmem => rfl⟩
          | admitted =>
            cases up with
            | ok st1 body =>
              exact ⟨fun st msg hban hip => by simp at hban, by simp, fun hmem => rfl⟩
            | transportError e =>
              exact ⟨fun st msg hban hip => by simp at hban, by simp, fun hmem => rfl⟩

/-- Witness for claim C3 at a concrete denial with designated status 403. -/
theorem ban_denied_untraced_witness :
    (handle [catchAllEndpoint] banDeniedEnv reqExample "rid").response =
      some (abort 403 "Banned") ∧
    (∀ r, (handle [catchAllEndpoint] banDeniedEnv reqExample "rid").response =
      some r → r.xRequestId = none) ∧
    (handle [catchAllEndpoint] banDeniedEnv reqExample "rid").requestId = none ∧
    Stage.authentication ∉ (handle [catchAllEndpoint] banDeniedEnv reqExample "rid").stages ∧
    Stage.rateLimiting ∉ (handle [catchAllEndpoint] banDeniedEnv reqExample "rid").stages :=
  (ban_denied_untraced [catchAllEndpoint] banDeniedEnv reqExample "rid").1
    403 "Banned" rfl rfl

/-- Claim C4: when the Authenticator declares a failure with its own status
and body and the pipeline reaches the authentication stage (so the request
had a resolved endpoint), the response is exactly that declared status and
body, untransformed, and the rate limiting and forwarding stages are never
invoked.  The Authenticator failure mode is modelled from the spec, since
the authentication module source is not included. -/
theorem auth_declared_failure_relayed (endpoints : List Endpoint) (env : Env)
    (req : Request) (fid : String) (st : Nat) (msg : String)
    (hAuth : env.auth = .declaredFailure st msg)
    (hReached : Stage.authentication ∈ (handle endpoints env req fid).stages) :
    (handle endpoints env req fid).response = some (abort st msg) ∧
    Stage.rateLimiting ∉ (handle endpoints env req fid).stages ∧
    Stage.forwarding ∉ (handle endpoints env req fid).stages := by
  obtain ⟨url, ip⟩ := req
  obtain ⟨ban, auth, rl, up⟩ := env
  have hA : auth = AuthOutcome.declaredFailure st msg := hAuth
  subst hA
  cases ip with
  | none => simp [handle] at hReached
  | some v =>
    cases ban with
    | cbError e => simp [handle] at hReached
    | denied st0 msg0 => simp [handle] at hReached
    | allowed =>
      simp only [handle] at hReached ⊢
      revert hReached
      cases hE : getEndpoint endpoints url with
      | none =>
        intro hReached
        simp at hReached
      | some ep =>
        intro hReached
        exact ⟨rfl,
          show Stage.rateLimiting ∉ [Stage.identity, Stage.banCheck,
            Stage.endpointResolution, Stage.authentication] by decide,
          show Stage.forwarding ∉ [Stage.identity, Stage.banCheck,
            Stage.endpointResolution, Stage.authentication] by decide⟩

/-- Witness for claim C4 at a concrete declared 401 failure on a matched
endpoint. -/
theorem auth_declared_failure_relayed_witness :
    (handle [catchAllEndpoint] authFailEnv reqExample "rid").response =
      some (abort 401 "Unauthorized") ∧
    Stage.rateLimiting ∉ (handle [catchAllEndpoint] authFailEnv reqExample "rid").stages ∧
    Stage.forwarding ∉ (handle [catchAllEndpoint] authFailEnv reqExample "rid").stages :=
  auth_declared_failure_relayed [catchAllEndpoint] authFailEnv reqExample "rid"
    401 "Unauthorized" rfl (by decide)

/-- Claim C7: whenever a request reaches forwarding, the X-Request-ID header
on the upstream request equals the X-Request-ID header set on the client
response, both equal the per-request uuid, the value is non-empty, and the
generator yields distinct values for distinct request serials. -/
theorem xRequestId_consistent :
    (∀ endpoints env req n f,
      (handle endpoints env req (uuidV4 n)).forwarded = some f →
        f.xRequestId = uuidV4 n ∧
        (handle endpoints env req (uuidV4 n)).resXRequestId = some f.xRequestId ∧
        f.xRequestId ≠ "") ∧
    (∀ m n : Nat, m ≠ n → uuidV4 m ≠ uuidV4 n) := by
  constructor
  · intro endpoints env req n f hf
    obtain ⟨url, ip⟩ := req
    obtain ⟨ban, auth, rl, up⟩ := env
    cases ip with
    | none => simp [handle] at hf
    | some v =>
      cases ban with
      | cbError e => simp [handle] at hf
      | denied st msg => simp [handle] at hf
      | allowed =>
        simp only [handle] at hf ⊢
        revert hf
        cases hE : getEndpoint endpoints url with
        | none =>
          intro hf
          simp at hf
        | some ep =>
          cases auth with
          | cbError e =>
            intro hf
            simp at hf
          | declaredFailure st msg =>
            intro hf
            simp at hf
          | token tok =>
            cases rl with
            | rejected st msg =>
              intro hf
              simp at hf
            | admitted =>
              cases up with
              | ok st body =>
                intro hf
                simp only [Option.some.injEq] at hf
                rw [← hf]
                exact ⟨rfl, rfl, uuidV4_ne_empty n⟩
              | transportError e =>
                intro hf
                simp only [Option.some.injEq] at hf
                rw [← hf]
                exact ⟨rfl, rfl, uuidV4_ne_empty n⟩
  · intro m n hmn h
    exact hmn (uuidV4_injective m n h)

/-- Witness for claim C7 at a concrete run that reaches forwarding with the
serial-zero uuid. -/
theorem xRequestId_consistent_witness :
    fwdExample.xRequestId = uuidV4 0 ∧
    (handle [catchAllEndpoint] okEnv reqExample (uuidV4 0)).resXRequestId =
      some fwdExample.xRequestId ∧
    fwdExample.xRequestId ≠ "" :=
  xRequestId_consistent.1 [catchAllEndpoint] okEnv reqExample 0 fwdExample (by rfl)

/-- Claim C8: at an admitted request whose upstream call fails at the
transport level, the error is logged, but the gateway writes no client
response at all (the proxy error handler at gateway.js lines 29 to 31 only
logs), instead of the generic internal failure response that the claim and
spec section 4.6 require. -/
theorem upstream_error_writes_no_response :
    (handle [catchAllEndpoint] upstreamFailEnv reqExample "rid").loggedErrors =
      ["connect ECONNREFUSED"] ∧
    (handle [catchAllEndpoint] upstreamFailEnv reqExample "rid").response = none ∧
    (handle [catchAllEndpoint] upstreamFailEnv reqExample "rid").forwarded.isSome = true :=
  ⟨rfl, rfl, rfl⟩

/-- Claim C9: when no endpoint pattern matches the request url, the response
is the fixed 404 Route not found and the authentication, rate limiting and
forwarding stages are never invoked. -/
theorem route_not_found_aborts (endpoints : List Endpoint) (env : Env)
    (req : Request) (fid : String) (hIp : req.userIp.isSome = true)
    (hBan : env.ban = .allowed) (hE : getEndpoint endpoints req.url = none) :
    (handle endpoints env req fid).response = some routeNotFound ∧
    Stage.authentication ∉ (handle endpoints env req fid).stages ∧
    Stage.rateLimiting ∉ (handle endpoints env req fid).stages ∧
    Stage.forwarding ∉ (handle endpoints env req fid).stages := by
  obtain ⟨url, ip⟩ := req
  obtain ⟨ban, auth, rl, up⟩ := env
  have hB : ban = BanOutcome.allowed := hBan
  subst hB
  cases ip with
  | none => simp at hIp
  | some v =>
    have hE2 : getEndpoint endpoints url = none := hE
    exact ⟨by simp [handle, hE2], by simp [handle, hE2], by simp [handle, hE2],
      by simp [handle, hE2]⟩

/-- Witness for claim C9 at an empty Endpoint Table. -/
theorem route_not_found_aborts_witness :
    (handle [] okEnv reqExample "rid").response = some routeNotFound ∧
    Stage.authentication ∉ (handle [] okEnv reqExample "rid").stages ∧
    Stage.rateLimiting ∉ (handle [] okEnv reqExample "rid").stages ∧
    Stage.forwarding ∉ (handle [] okEnv reqExample "rid").stages :=
  route_not_found_aborts [] okEnv reqExample "rid" rfl rfl rfl

/-- Claim C10: endpoint matching and rewriting operate on the full request
url including the query string: the forwarded target is always the pattern
rewrite applied to the whole req.url, the resolved endpoint is always the
first-match scan of the whole req.url (path concatenated with query), a
config is exhibited where two requests with equal path but different query
resolve to different endpoints, and the rewrite substitution applied to the
full url carries the query string through the capture. -/
theorem match_on_full_url :
    (∀ endpoints env url ip fid ep f, env.ban = .allowed →
      getEndpoint endpoints url = some ep →
      (handle endpoints env { url := url, userIp := some ip } fid).forwarded = some f →
      f.target = ep.pattern.rewrite url ep.target) ∧
    (∀ endpoints env path query ip fid, env.ban = .allowed →
      (handle endpoints env { url := path ++ query, userIp := some ip } fid).resolved =
        (getEndpoint endpoints (path ++ query)).map Endpoint.name) ∧
    ((handle [adminEndpoint, catchAllEndpoint] okEnv
        { url := "/x?adm=1".data, userIp := some "2.2.2.2" } "rid").resolved =
          some "admin" ∧
      (handle [adminEndpoint, catchAllEndpoint] okEnv
        { url := "/x?adm=0".data, userIp := some "2.2.2.2" } "rid").resolved =
          some "all" ∧
      ("/x?adm=1".data : Str) = "/x".data ++ "?adm=1".data ∧
      ("/x?adm=0".data : Str) = "/x".data ++ "?adm=0".data) ∧
    (prefixCapture ("/x".data)).rewrite ("/x?q=2".data) ("T$1".data) = "T?q=2".data := by
  refine ⟨?_, ?_, ⟨by rfl, by rfl, by rfl, by rfl⟩, by rfl⟩
  · intro endpoints env url ip fid ep f hBan hE hf
    obtain ⟨ban, auth, rl, up⟩ := env
    have hB : ban = BanOutcome.allowed := hBan
    subst hB
    have hE2 : getEndpoint endpoints url = some ep := hE
    simp only [handle, hE2] at hf
    revert hf
    cases auth with
    | cbError e =>
      intro hf
      simp at hf
    | declaredFailure st msg =>
      intro hf
      simp at hf
    | token tok =>
      cases rl with
      | rejected st msg =>
        intro hf
        simp at hf
      | admitted =>
        cases up with
        | ok st body =>
          intro hf
          simp only [Option.some.injEq] at hf
          rw [← hf]
        | transportError e =>
          intro hf
          simp only [Option.some.injEq] at hf
          rw [← hf]
  · intro endpoints env path query ip fid hBan
    obtain ⟨ban, auth, rl, up⟩ := env
    have hB : ban = BanOutcome.allowed := hBan
    subst hB
    simp only [handle]
    cases hE : getEndpoint endpoints (path ++ query) with
    | none => rfl
    | some ep =>
      cases auth with
      | cbError e => rfl
      | declaredFailure st msg => rfl
      | token tok =>
        cases rl with
        | rejected st msg => rfl
        | admitted =>
          cases up with
          | ok st body => rfl
          | transportError e => rfl

/-- Witness for claim C10 at the spec round-trip inputs: the forwarded
target of the example run is the rewrite of the full url. -/
theorem match_on_full_url_witness :
    usersFwd.target =
      usersEndpoint.pattern.rewrite ("/api/users/42?x=1".data) usersEndpoint.target :=
  match_on_full_url.1 [usersEndpoint] okEnv ("/api/users/42?x=1".data) "9.9.9.9"
    "rid" usersEndpoint usersFwd rfl (by rfl) (by rfl)

end Gateway
